import Mathlib

/-
Verification of the StaticWebsite construct from `src/lib/index.ts`.

The construct is a declarative composition: given a `StaticWebsiteProps`
record it builds an S3 bucket descriptor, optionally a bucket-deployment
descriptor, a hosted-zone lookup, an SSL-certificate descriptor, an
origin-access identity, a CloudFront distribution descriptor and a DNS
A-record descriptor.  Each descriptor is embedded below as an immutable
Lean structure; the constructor and each private builder method of the
TypeScript class becomes a pure Lean function with the same name.

JavaScript strings are modelled as lists of characters.  The one piece of
genuine computation in the source is the hosted-zone derivation
`domainName.replace(/.*?\.(.*)/, "$1")`; the regex semantics (a lazy dot
run, a literal dot, a greedy capture, with `.` not matching line
terminators, replacing only the leftmost match) is embedded exactly.
-/

/-- JavaScript strings, modelled as lists of characters. -/
abbrev JSString := List Char

/-- JavaScript line terminators: the characters a regex `.` without the
dotAll flag does not match. -/
def isLineTerm (c : Char) : Bool :=
  c = '\n' || c = '\r' || c = '\u2028' || c = '\u2029'

/-- Whether the regex metacharacter `.` (no dotAll flag) matches a
character: anything except a line terminator. -/
def dotMatch (c : Char) : Bool :=
  !(isLineTerm c)

/-- The greedy capture `(.*)`: split off the longest run of characters
matched by `.`, returning the capture and the remaining characters. -/
def greedyDot : List Char → List Char × List Char
  | [] => ([], [])
  | c :: cs =>
    if dotMatch c then
      let p := greedyDot cs
      (c :: p.1, p.2)
    else
      ([], c :: cs)

/-- Try to match the regex `.*?\.(.*)` starting at the head of the input.
The lazy `.*?` tries the literal `\.` first and extends one `.`-matchable
character at a time; on success the result is the `(.*)` capture together
with the characters after the whole match. -/
def tryMatchAt : List Char → Option (List Char × List Char)
  | [] => none
  | c :: cs =>
    if c = '.' then some (greedyDot cs)
    else if dotMatch c then tryMatchAt cs
    else none

/-- JavaScript `s.replace(/.*?\.(.*)/, "$1")` for a non-global regex: the
leftmost-starting match is replaced by its first capture group; if the
regex matches nowhere the string is returned unchanged. -/
def replaceFirstLabel : List Char → List Char
  | [] => []
  | c :: cs =>
    match tryMatchAt (c :: cs) with
    | some p => p.1 ++ p.2
    | none => c :: replaceFirstLabel cs

/-- The substring after the first '.' of a string ("removing exactly the
leftmost DNS label", as the specification words it).  Defined from the
spec wording, to be compared with the source's regex replace. -/
def afterFirstDot : List Char → List Char
  | [] => []
  | c :: cs => if c = '.' then cs else afterFirstDot cs

/-- A reference to an existing Route53 hosted zone, identified by the
domain name it was looked up under. -/
structure HostedZoneRef where
  domainName : JSString
deriving DecidableEq

/-- `HostedZone.fromLookup`: resolves the zone registered under the given
domain name.  The lookup itself happens in the provisioning engine; the
model records the queried name. -/
def HostedZone.fromLookup (domainName : JSString) : HostedZoneRef :=
  ⟨domainName⟩

/-- `cdk.RemovalPolicy`. -/
inductive RemovalPolicy where
  | destroy
  | retain
  | snapshot
deriving DecidableEq

/-- `BlockPublicAccess` settings of an S3 bucket. -/
structure BlockPublicAccess where
  blockPublicAcls : Bool
  blockPublicPolicy : Bool
  ignorePublicAcls : Bool
  restrictPublicBuckets : Bool
deriving DecidableEq

/-- `BlockPublicAccess.BLOCK_ALL`: all four settings enabled. -/
def BlockPublicAccess.BLOCK_ALL : BlockPublicAccess :=
  ⟨true, true, true, true⟩

/-- The S3 bucket descriptor, with the fields `createBucket` sets. -/
structure Bucket where
  websiteIndexDocument : JSString
  bucketName : JSString
  removalPolicy : RemovalPolicy
  blockPublicAccess : BlockPublicAccess
deriving DecidableEq

/-- `cdk.Duration`, normalised to seconds. -/
structure Duration where
  seconds : Nat
deriving DecidableEq

/-- `cdk.Duration.days`. -/
def Duration.days (n : Nat) : Duration :=
  ⟨n * 86400⟩

/-- `cdk.Duration.minutes`. -/
def Duration.minutes (n : Nat) : Duration :=
  ⟨n * 60⟩

/-- `CacheControl` directives used by the source. -/
inductive CacheControl where
  | noCache
deriving DecidableEq

/-- The bucket-deployment (content upload) descriptor, with the fields
`createBucketDeployment` sets; `sources` holds the asset paths. -/
structure BucketDeployment where
  sources : List JSString
  destinationBucket : Bucket
  cacheControl : List CacheControl
deriving DecidableEq

/-- The origin-access-identity descriptor. -/
structure OriginAccessIdentity where
  comment : JSString
deriving DecidableEq

/-- How a certificate is validated.  The source uses the
`DnsValidatedCertificate` class, which validates via DNS by construction. -/
inductive ValidationKind where
  | dns
deriving DecidableEq

/-- The certificate descriptor, with the fields `createCertificate` sets. -/
structure DnsValidatedCertificate where
  domainName : JSString
  hostedZone : HostedZoneRef
  region : JSString
  validation : ValidationKind
deriving DecidableEq

/-- A CloudFront cache behavior. -/
structure Behavior where
  isDefaultBehavior : Bool
  defaultTtl : Duration
deriving DecidableEq

/-- An S3 origin source: the bucket plus the access identity through which
the distribution reads it. -/
structure S3OriginSource where
  s3BucketSource : Bucket
  originAccessIdentity : OriginAccessIdentity
deriving DecidableEq

/-- One origin configuration of the distribution. -/
structure OriginConfig where
  s3OriginSource : S3OriginSource
  behaviors : List Behavior
deriving DecidableEq

/-- The alias configuration: the certificate backing the alias and the
domain names served.  The source passes the certificate's ARN; the model
stores the certificate descriptor the ARN refers to. -/
structure AliasConfiguration where
  acmCertRef : DnsValidatedCertificate
  names : List JSString
deriving DecidableEq

/-- One custom error mapping of the distribution. -/
structure ErrorConfiguration where
  errorCode : Nat
  errorCachingMinTtl : Nat
  responseCode : Nat
  responsePagePath : JSString
deriving DecidableEq

/-- The CloudFront distribution descriptor, with the fields
`createCloudFrontWebDistribution` sets. -/
structure CloudFrontWebDistribution where
  originConfigs : List OriginConfig
  webACLId : Option JSString
  aliasConfiguration : AliasConfiguration
  defaultRootObject : JSString
  errorConfigurations : List ErrorConfiguration
deriving DecidableEq

/-- DNS record types.  The `ARecord` class always produces type A. -/
inductive RecordType where
  | A
deriving DecidableEq

/-- An alias record target, as built by `new CloudFrontTarget(...)`. -/
inductive AliasRecordTarget where
  | cloudFrontTarget : CloudFrontWebDistribution → AliasRecordTarget
deriving DecidableEq

/-- `RecordTarget.fromAlias` applied to an alias target. -/
inductive RecordTarget where
  | fromAlias : AliasRecordTarget → RecordTarget
deriving DecidableEq

/-- The DNS A-record descriptor, with the fields `createARecord` sets;
`recordType` is fixed to A by the `ARecord` class itself. -/
structure ARecord where
  target : RecordTarget
  recordName : JSString
  ttl : Duration
  zone : HostedZoneRef
  recordType : RecordType
deriving DecidableEq

/-- `StaticWebsiteProps`: the input configuration.  Optional TypeScript
fields are `Option`; a destructuring default (for `bucketName` and
`indexDocument`) applies exactly when the field is `none`. -/
structure StaticWebsiteProps where
  domainName : JSString
  websiteDistPath : Option JSString := none
  indexDocument : Option JSString := none
  bucketName : Option JSString := none
  webACLId : Option JSString := none
deriving DecidableEq

/-- The resources the `StaticWebsite` construct creates.  `bucket`,
`bucketDeployment`, `distribution` and `dnsRecord` are the public fields
of the TypeScript class; the hosted zone, certificate and access identity
are created internally and exposed here for observation. -/
structure StaticWebsite where
  bucket : Bucket
  bucketDeployment : Option BucketDeployment
  distribution : CloudFrontWebDistribution
  dnsRecord : ARecord
  hostedZone : HostedZoneRef
  certificate : DnsValidatedCertificate
  originAccessIdentity : OriginAccessIdentity
deriving DecidableEq

/-- `StaticWebsite.createBucket`: the bucket always blocks all public
access and is destroyed on teardown. -/
def StaticWebsite.createBucket (websiteIndexDocument : JSString)
    (bucketName : JSString) : Bucket :=
  { websiteIndexDocument := websiteIndexDocument
    bucketName := bucketName
    removalPolicy := RemovalPolicy.destroy
    blockPublicAccess := BlockPublicAccess.BLOCK_ALL }

/-- `StaticWebsite.createBucketDeployment`: upload the asset path into the
bucket with a no-cache directive. -/
def StaticWebsite.createBucketDeployment (websiteDistPath : JSString)
    (destinationBucket : Bucket) : BucketDeployment :=
  { sources := [websiteDistPath]
    destinationBucket := destinationBucket
    cacheControl := [CacheControl.noCache] }

/-- `StaticWebsite.createOriginAccessIdentity`: the OAI comment names the
bucket (the read grant on the bucket is a side effect on the provisioning
engine's policy document and is not part of the descriptor). -/
def StaticWebsite.createOriginAccessIdentity
    (destinationBucket : Bucket) : OriginAccessIdentity :=
  { comment := ("OAI for ".toList) ++ destinationBucket.bucketName }

/-- `StaticWebsite.createCloudFrontWebDistribution`: single S3 origin with
a 60-day default TTL, optional WAF id, certificate-backed alias for the
domain, and a single 404 → 200 error mapping onto the index document. -/
def StaticWebsite.createCloudFrontWebDistribution (destinationBucket : Bucket)
    (originAccessIdentity : OriginAccessIdentity)
    (acmCertRef : DnsValidatedCertificate) (domainName : JSString)
    (websiteIndexDocument : JSString) (webACLId : Option JSString) :
    CloudFrontWebDistribution :=
  { originConfigs :=
      [{ s3OriginSource :=
          { s3BucketSource := destinationBucket
            originAccessIdentity := originAccessIdentity }
         behaviors := [{ isDefaultBehavior := true
                         defaultTtl := Duration.days 60 }] }]
    webACLId := webACLId
    aliasConfiguration := { acmCertRef := acmCertRef, names := [domainName] }
    defaultRootObject := websiteIndexDocument
    errorConfigurations :=
      [{ errorCode := 404
         errorCachingMinTtl := 300
         responseCode := 200
         responsePagePath := '/' :: websiteIndexDocument }] }

/-- `StaticWebsite.createCertificate`: certificate for the exact domain
name, DNS-validated against the zone, issued in the fixed region
us-east-1 (the model takes no deployment region at all, so the fixed
region holds regardless of it). -/
def StaticWebsite.createCertificate (domainName : JSString)
    (hostedZone : HostedZoneRef) : DnsValidatedCertificate :=
  { domainName := domainName
    hostedZone := hostedZone
    region := ("us-east-1".toList)
    validation := ValidationKind.dns }

/-- `StaticWebsite.lookupHostedZone`: derive the zone name with
`domainName.replace(/.*?\.(.*)/, "$1")` and look it up. -/
def StaticWebsite.lookupHostedZone (domainName : JSString) : HostedZoneRef :=
  HostedZone.fromLookup (replaceFirstLabel domainName)

/-- `StaticWebsite.createARecord`: alias A record for the domain pointing
at the distribution, TTL one minute. -/
def StaticWebsite.createARecord (zone : HostedZoneRef)
    (domainName : JSString) (distribution : CloudFrontWebDistribution) :
    ARecord :=
  { target := RecordTarget.fromAlias
      (AliasRecordTarget.cloudFrontTarget distribution)
    recordName := domainName
    ttl := Duration.minutes 1
    zone := zone
    recordType := RecordType.A }

/-- The `StaticWebsite` constructor.  Defaults are applied by
destructuring (`bucketName`, `indexDocument`); the bucket deployment is
created only when `websiteDistPath` is truthy, i.e. present and
non-empty, mirroring `if (websiteDistPath)`. -/
def StaticWebsite.create (props : StaticWebsiteProps) : StaticWebsite :=
  let domainName := props.domainName
  let bucketName := props.bucketName.getD (("website.".toList) ++ domainName)
  let indexDocument := props.indexDocument.getD ("index.html".toList)
  let bucket := StaticWebsite.createBucket indexDocument bucketName
  let bucketDeployment :=
    match props.websiteDistPath with
    | none => none
    | some p =>
      if p.isEmpty then none
      else some (StaticWebsite.createBucketDeployment p bucket)
  let hostedZone := StaticWebsite.lookupHostedZone domainName
  let certificate := StaticWebsite.createCertificate domainName hostedZone
  let oai := StaticWebsite.createOriginAccessIdentity bucket
  let distribution := StaticWebsite.createCloudFrontWebDistribution
    bucket oai certificate domainName indexDocument props.webACLId
  let dnsRecord := StaticWebsite.createARecord hostedZone domainName
    distribution
  { bucket := bucket
    bucketDeployment := bucketDeployment
    distribution := distribution
    dnsRecord := dnsRecord
    hostedZone := hostedZone
    certificate := certificate
    originAccessIdentity := oai }

/-- The removal-policy configurations the construct makes: the source sets
a removal policy only on the bucket; every other resource carries no
removal-policy configuration, so the provisioning engine destroys it with
the stack by default. -/
def StaticWebsite.configuredRemovalPolicies (w : StaticWebsite) :
    List RemovalPolicy :=
  [w.bucket.removalPolicy]

/-- If every character of a list is matched by `.`, the greedy capture
swallows the whole list. -/
theorem greedyDot_all_match (l : List Char)
    (h : ∀ c ∈ l, dotMatch c = true) : greedyDot l = (l, []) := by
  induction l with
  | nil => rfl
  | cons c cs ih =>
    have hc : dotMatch c = true := h c (by simp)
    have hcs : greedyDot cs = (cs, []) := ih (fun x hx => h x (by simp [hx]))
    simp [greedyDot, hc, hcs]

/-- On a string free of line terminators that contains a '.', the regex
match succeeds and captures exactly the characters after the first '.'. -/
theorem tryMatchAt_clean (l : List Char)
    (hclean : ∀ c ∈ l, isLineTerm c = false) (hdot : '.' ∈ l) :
    tryMatchAt l = some (afterFirstDot l, []) := by
  induction l with
  | nil => cases hdot
  | cons c cs ih =>
    by_cases hc : c = '.'
    · subst hc
      have hall : ∀ x ∈ cs, dotMatch x = true := fun x hx => by
        simp [dotMatch, hclean x (by simp [hx])]
      simp [tryMatchAt, afterFirstDot, greedyDot_all_match cs hall]
    · have hdm : dotMatch c = true := by
        simp [dotMatch, hclean c (by simp)]
      have hdcs : '.' ∈ cs := by
        cases hdot with
        | head => exact absurd rfl hc
        | tail _ h => exact h
      simp [tryMatchAt, hc, hdm, afterFirstDot,
        ih (fun x hx => hclean x (by simp [hx])) hdcs]

/-- On a string free of line terminators that contains a '.', the source's
regex replace drops exactly everything up to and including the first '.'. -/
theorem replaceFirstLabel_clean (l : List Char)
    (hclean : ∀ c ∈ l, isLineTerm c = false) (hdot : '.' ∈ l) :
    replaceFirstLabel l = afterFirstDot l := by
  cases l with
  | nil => cases hdot
  | cons c cs =>
    simp [replaceFirstLabel, tryMatchAt_clean _ hclean hdot]

/-- Without any '.' in the input the regex cannot match. -/
theorem tryMatchAt_no_dot (l : List Char) (h : '.' ∉ l) :
    tryMatchAt l = none := by
  induction l with
  | nil => rfl
  | cons c cs ih =>
    have hc : ¬ c = '.' := fun hc => h (by simp [hc])
    have hcs : '.' ∉ cs := fun hx => h (List.mem_cons_of_mem _ hx)
    simp [tryMatchAt, hc, ih hcs]

/-- Without any '.' in the input the replace returns it unchanged. -/
theorem replaceFirstLabel_no_dot (l : List Char) (h : '.' ∉ l) :
    replaceFirstLabel l = l := by
  induction l with
  | nil => rfl
  | cons c cs ih =>
    have hcs : '.' ∉ cs := fun hx => h (List.mem_cons_of_mem _ hx)
    simp [replaceFirstLabel, tryMatchAt_no_dot _ h, ih hcs]

/-- Claim C1, counterexample: the claim quantifies over every domainName
containing a '.', but for an input containing a line terminator before
the first '.' (here "a\n.b") the regex `.` cannot cross the terminator,
the match starts after it, and the characters up to the terminator
survive: the queried zone is "a\nb", not the substring after the first
'.' (which is "b"). -/
theorem C1_counterexample :
    '.' ∈ ['a', '\n', '.', 'b'] ∧
    (StaticWebsite.lookupHostedZone ['a', '\n', '.', 'b']).domainName ≠
      afterFirstDot ['a', '\n', '.', 'b'] := by
  decide

/-- Claim C1 (amended): for every domainName that contains at least one
'.' and no JavaScript line-terminator character, the hosted-zone lookup
queries the domain obtained by removing exactly the leftmost DNS label,
i.e. the substring after the first '.'. -/
theorem C1_hosted_zone_strips_first_label (s : JSString)
    (hclean : ∀ c ∈ s, isLineTerm c = false) (hdot : '.' ∈ s) :
    (StaticWebsite.lookupHostedZone s).domainName = afterFirstDot s := by
  simp [StaticWebsite.lookupHostedZone, HostedZone.fromLookup,
    replaceFirstLabel_clean s hclean hdot]

/-- Claim C1, witness: lookupHostedZone on "foo.bar.dk" queries the zone
"bar.dk". -/
theorem C1_hosted_zone_strips_first_label_witness :
    (∀ c ∈ ("foo.bar.dk".toList), isLineTerm c = false) ∧
    '.' ∈ ("foo.bar.dk".toList) ∧
    (StaticWebsite.lookupHostedZone ("foo.bar.dk".toList)).domainName =
      ("bar.dk".toList) :=
  ⟨by decide, by decide,
    (C1_hosted_zone_strips_first_label ("foo.bar.dk".toList)
      (by decide) (by decide)).trans (by decide)⟩

/-- Claim C9: for every domainName containing no '.' character, the
hosted-zone lookup queries the full domainName unchanged, because the
regular expression does not match. -/
theorem C9_no_dot_queries_unchanged (s : JSString) (h : '.' ∉ s) :
    (StaticWebsite.lookupHostedZone s).domainName = s := by
  simp [StaticWebsite.lookupHostedZone, HostedZone.fromLookup,
    replaceFirstLabel_no_dot s h]

/-- Claim C9, witness: lookupHostedZone on "localhost" queries
"localhost" itself. -/
theorem C9_no_dot_queries_unchanged_witness :
    '.' ∉ ("localhost".toList) ∧
    (StaticWebsite.lookupHostedZone ("localhost".toList)).domainName =
      ("localhost".toList) :=
  ⟨by decide, C9_no_dot_queries_unchanged ("localhost".toList) (by decide)⟩

/-- Claim C2: when bucketName is omitted, the bucket descriptor's name is
"website." ++ domainName; when bucketName is supplied, the bucket
descriptor uses the supplied name. -/
theorem C2_bucket_name_default (props : StaticWebsiteProps) :
    (props.bucketName = none →
      (StaticWebsite.create props).bucket.bucketName =
        ("website.".toList) ++ props.domainName) ∧
    (∀ n, props.bucketName = some n →
      (StaticWebsite.create props).bucket.bucketName = n) := by
  constructor
  · intro h
    simp [StaticWebsite.create, StaticWebsite.createBucket, h]
  · intro n h
    simp [StaticWebsite.create, StaticWebsite.createBucket, h]

/-- Claim C2, witness: with domainName "foo.bar.dk" and no bucketName the
bucket is named "website.foo.bar.dk"; supplying bucketName "custom" names
the bucket "custom". -/
theorem C2_bucket_name_default_witness :
    (StaticWebsite.create
      { domainName := ("foo.bar.dk".toList) }).bucket.bucketName =
      ("website.foo.bar.dk".toList) ∧
    (StaticWebsite.create
      { domainName := ("foo.bar.dk".toList)
        bucketName := some ("custom".toList) }).bucket.bucketName =
      ("custom".toList) :=
  ⟨((C2_bucket_name_default
      { domainName := ("foo.bar.dk".toList) }).1 rfl).trans (by decide),
   (C2_bucket_name_default
      { domainName := ("foo.bar.dk".toList)
        bucketName := some ("custom".toList) }).2 ("custom".toList) rfl⟩

/-- Claim C3: for every input configuration, the bucket descriptor blocks
public access completely: all four block-public-access settings are
enabled (BLOCK_ALL). -/
theorem C3_public_access_blocked (props : StaticWebsiteProps) :
    (StaticWebsite.create props).bucket.blockPublicAccess =
      BlockPublicAccess.BLOCK_ALL ∧
    (StaticWebsite.create props).bucket.blockPublicAccess.blockPublicAcls
      = true ∧
    (StaticWebsite.create props).bucket.blockPublicAccess.blockPublicPolicy
      = true ∧
    (StaticWebsite.create props).bucket.blockPublicAccess.ignorePublicAcls
      = true ∧
    (StaticWebsite.create
      props).bucket.blockPublicAccess.restrictPublicBuckets = true :=
  ⟨rfl, rfl, rfl, rfl, rfl⟩

/-- Claim C4: for every input configuration, the distribution descriptor
has exactly one custom error mapping, sending error 404 to response 200
with page path "/" ++ the effective index document and a 300-second
error-caching minimum TTL. -/
theorem C4_single_error_mapping (props : StaticWebsiteProps) :
    (StaticWebsite.create props).distribution.errorConfigurations =
      [{ errorCode := 404
         errorCachingMinTtl := 300
         responseCode := 200
         responsePagePath :=
           '/' :: (props.indexDocument.getD ("index.html".toList)) }] :=
  rfl

/-- Claim C5: for every input configuration, the DNS record descriptor is
named by the input domainName, has type A, TTL one minute, and its alias
target references the created distribution. -/
theorem C5_dns_record (props : StaticWebsiteProps) :
    (StaticWebsite.create props).dnsRecord.recordName = props.domainName ∧
    (StaticWebsite.create props).dnsRecord.recordType = RecordType.A ∧
    (StaticWebsite.create props).dnsRecord.ttl = Duration.minutes 1 ∧
    (StaticWebsite.create props).dnsRecord.target =
      RecordTarget.fromAlias (AliasRecordTarget.cloudFrontTarget
        (StaticWebsite.create props).distribution) :=
  ⟨rfl, rfl, rfl, rfl⟩

/-- Claim C6, counterexample: websiteDistPath supplied as the empty
string is a supplied path, yet no bucket deployment is produced, because
`if (websiteDistPath)` is a truthiness test and "" is falsy. -/
theorem C6_counterexample :
    ({ domainName := ("foo.bar.dk".toList), websiteDistPath := some [] } :
      StaticWebsiteProps).websiteDistPath = some [] ∧
    (StaticWebsite.create
      { domainName := ("foo.bar.dk".toList)
        websiteDistPath := some [] }).bucketDeployment = none :=
  ⟨rfl, rfl⟩

/-- Claim C6 (amended): when websiteDistPath is supplied and non-empty,
the construct produces a bucket-deployment descriptor whose single source
is that path, whose destination is the created bucket and whose
cache-control is no-cache; when websiteDistPath is omitted (or empty), no
deployment descriptor is produced. -/
theorem C6_bucket_deployment (props : StaticWebsiteProps) :
    (∀ p, props.websiteDistPath = some p → p ≠ [] →
      (StaticWebsite.create props).bucketDeployment =
        some { sources := [p]
               destinationBucket := (StaticWebsite.create props).bucket
               cacheControl := [CacheControl.noCache] }) ∧
    (props.websiteDistPath = none →
      (StaticWebsite.create props).bucketDeployment = none) := by
  constructor
  · intro p hp hne
    simp [StaticWebsite.create, StaticWebsite.createBucketDeployment,
      hp, hne]
  · intro hp
    simp [StaticWebsite.create, hp]

/-- Claim C6, witness: supplying the non-empty path "dist" produces a
deployment of ["dist"] into the created bucket with no-cache. -/
theorem C6_bucket_deployment_witness :
    ({ domainName := ("foo.bar.dk".toList)
       websiteDistPath := some ("dist".toList) } :
      StaticWebsiteProps).websiteDistPath = some ("dist".toList) ∧
    ("dist".toList : JSString) ≠ [] ∧
    (StaticWebsite.create
      { domainName := ("foo.bar.dk".toList)
        websiteDistPath := some ("dist".toList) }).bucketDeployment =
      some { sources := [("dist".toList)]
             destinationBucket := (StaticWebsite.create
               { domainName := ("foo.bar.dk".toList)
                 websiteDistPath := some ("dist".toList) }).bucket
             cacheControl := [CacheControl.noCache] } :=
  ⟨rfl, by decide,
    (C6_bucket_deployment
      { domainName := ("foo.bar.dk".toList)
        websiteDistPath := some ("dist".toList) }).1
      ("dist".toList) rfl (by decide)⟩

/-- Claim C7: for every input configuration, the certificate descriptor
is for exactly the input domainName, is DNS-validated against the
resolved hosted zone, and is issued in the fixed region "us-east-1" (the
model takes no deployment region, so this holds regardless of it). -/
theorem C7_certificate (props : StaticWebsiteProps) :
    (StaticWebsite.create props).certificate.domainName =
      props.domainName ∧
    (StaticWebsite.create props).certificate.hostedZone =
      (StaticWebsite.create props).hostedZone ∧
    (StaticWebsite.create props).certificate.validation =
      ValidationKind.dns ∧
    (StaticWebsite.create props).certificate.region =
      ("us-east-1".toList) :=
  ⟨rfl, rfl, rfl, rfl⟩

/-- Claim C8: every removal-policy configuration the construct makes is
destroy (the source configures a removal policy only on the bucket, so no
resource is ever configured for retention and the provisioning engine
tears everything down together); in particular the bucket descriptor's
removal policy is always destroy. -/
theorem C8_destroy_on_teardown (props : StaticWebsiteProps) :
    (∀ rp ∈ StaticWebsite.configuredRemovalPolicies
        (StaticWebsite.create props), rp = RemovalPolicy.destroy) ∧
    (StaticWebsite.create props).bucket.removalPolicy =
      RemovalPolicy.destroy := by
  refine ⟨?_, rfl⟩
  intro rp hrp
  simpa [StaticWebsite.configuredRemovalPolicies,
    StaticWebsite.create, StaticWebsite.createBucket] using hrp

/-- Claim C8, witness: the single configured removal policy of the
construct on "foo.bar.dk" is destroy. -/
theorem C8_destroy_on_teardown_witness :
    RemovalPolicy.destroy ∈ StaticWebsite.configuredRemovalPolicies
      (StaticWebsite.create { domainName := ("foo.bar.dk".toList) }) ∧
    RemovalPolicy.destroy = RemovalPolicy.destroy :=
  ⟨by decide,
    (C8_destroy_on_teardown { domainName := ("foo.bar.dk".toList) }).1
      RemovalPolicy.destroy (by decide)⟩

/-- Claim C10: when websiteDistPath is supplied as the empty string, no
bucket deployment is produced and the whole construct equals the one
built with websiteDistPath omitted, because the presence check is a
truthiness test on the string. -/
theorem C10_empty_path_no_deployment (props : StaticWebsiteProps)
    (h : props.websiteDistPath = some []) :
    (StaticWebsite.create props).bucketDeployment = none ∧
    StaticWebsite.create props =
      StaticWebsite.create { props with websiteDistPath := none } := by
  constructor
  · simp [StaticWebsite.create, h]
  · simp [StaticWebsite.create, h]

/-- Claim C10, witness: on "foo.bar.dk" with websiteDistPath "" the
construct has no deployment and equals the construct with the path
omitted. -/
theorem C10_empty_path_no_deployment_witness :
    (StaticWebsite.create
      { domainName := ("foo.bar.dk".toList)
        websiteDistPath := some [] }).bucketDeployment = none ∧
    StaticWebsite.create
      { domainName := ("foo.bar.dk".toList), websiteDistPath := some [] } =
      StaticWebsite.create
        { ({ domainName := ("foo.bar.dk".toList)
             websiteDistPath := some [] } : StaticWebsiteProps) with
          websiteDistPath := none } :=
  C10_empty_path_no_deployment
    { domainName := ("foo.bar.dk".toList), websiteDistPath := some [] } rfl
